import Mathlib

/-!
Shallow embedding of `gym_deepdrive/envs/deepdrive_gym_env.py` (the deepdrive
gym environment): the reward calculator, the per-step reward/score accumulation,
lap statistics and benchmark recording, stuck detection, and the connection /
capture-bootstrap retry loops.

Modelling conventions:
* Python floats are modelled as `ℚ` (exact rational arithmetic).
* Every `time.time()` call is modelled as an explicit `ℚ` parameter supplied by
  the caller (one parameter per distinct read site where the distinction
  matters; within a single method all reads are modelled by one parameter).
* A Python telemetry dict (`obz`) is modelled as a record of `Option` fields:
  `none` models an absent key.  A `None` observation is `Option Obz`'s `none`.
* Functions that can raise Python exceptions return `Except String _`, the
  string naming the exception raised.
* `numpy.sqrt` is abstracted as an explicit function parameter
  `sq : ℚ → ℚ` (floating-point square roots are not exactly rational).
* External I/O (CSV writing, logging, dashboard queue, the capture/control
  client calls) is modelled by the data it feeds back into the environment
  state: the results of `deepdrive_client.create` and `deepdrive_capture.reset`
  become explicit input sequences, and the CSV write in
  `log_benchmark_trial` is dropped (it reads but does not change the state).
-/

namespace DeepDriveGym

/-- `SPEED_LIMIT_KPH = 64.` (module-level constant). -/
def SPEED_LIMIT_KPH : ℚ := 64

namespace DeepDriveRewardCalculator

/-- `clip(reward) = min(max(reward, -1e2), 1e2)`. -/
def clip (reward : ℚ) : ℚ := min (max reward (-100)) 100

/-- `DeepDriveRewardCalculator.get_speed_reward(cmps, time_passed)`. -/
def get_speed_reward (cmps time_passed : ℚ) : ℚ :=
  let speed_kph := cmps * 3600 / 100 / 1000
  let balance_coeff : ℚ := 2 / 10
  let speed_delta := speed_kph - SPEED_LIMIT_KPH
  let speed_reward :=
    if speed_delta > 4 then
      -1 * balance_coeff * speed_kph * time_passed * speed_delta ^ 2
    else
      balance_coeff * time_passed * speed_kph
  clip speed_reward

/-- `DeepDriveRewardCalculator.get_lane_deviation_penalty(lane_deviation,
time_passed)`.  `time_passed` is `Option ℚ` because the source tests
`time_passed is not None`. -/
def get_lane_deviation_penalty (lane_deviation : ℚ) (time_passed : Option ℚ) :
    Except String ℚ :=
  if lane_deviation < 0 then
    Except.error "ValueError: Lane deviation should be positive"
  else
    let lane_deviation_penalty : ℚ :=
      match time_passed with
      | some tp =>
        if lane_deviation > 200 then
          let lane_deviation_coeff : ℚ := 1 / 10
          lane_deviation_coeff * tp * lane_deviation ^ 2 / 100
        else 0
      | none => 0
    Except.ok (clip lane_deviation_penalty)

/-- `DeepDriveRewardCalculator.get_gforce_penalty(gforces, time_passed)`.
The source applies `time_passed` without a `None` guard (callers guard), so
`time_passed : ℚ`. -/
def get_gforce_penalty (gforces time_passed : ℚ) : Except String ℚ :=
  if gforces < 0 then
    Except.error "ValueError: G-Force should be positive"
  else
    let gforce_penalty : ℚ :=
      if gforces > 1 / 2 then
        let time_weighted_gs := time_passed * gforces
        let time_weighted_gs := min time_weighted_gs 5
        let balance_coeff : ℚ := 24
        time_weighted_gs * balance_coeff
      else 0
    Except.ok (clip gforce_penalty)

/-- `DeepDriveRewardCalculator.get_progress_reward(progress, time_passed)`. -/
def get_progress_reward (progress : ℚ) (time_passed : Option ℚ) : ℚ :=
  let progress : ℚ :=
    match time_passed with
    | some tp =>
      let step_velocity := progress / tp
      if step_velocity < -400 * 100 then 0 else progress
    | none => progress
  let progress_reward := progress / 100
  let balance_coeff : ℚ := 1
  let progress_reward := progress_reward * balance_coeff
  clip progress_reward

end DeepDriveRewardCalculator

/-- `Score.__init__` plus the class-level accumulator defaults:
`total = gforce_penalty = speed_reward = lane_deviation_penalty =
progress_reward = 0`, `got_stuck = False`, `start_time = time.time()`,
`end_time = None`. -/
structure Score where
  total : ℚ := 0
  gforce_penalty : ℚ := 0
  speed_reward : ℚ := 0
  lane_deviation_penalty : ℚ := 0
  progress_reward : ℚ := 0
  got_stuck : Bool := false
  start_time : ℚ
  end_time : Option ℚ := none
  deriving DecidableEq, Repr

/-- One preprocessed telemetry observation dict.  Each optional field models a
key that may or may not be present in the Python dict (`none` = key absent).
`acceleration` is the raw 3-vector from which g-forces are derived. -/
structure Obz where
  speed : Option ℚ := none
  throttle : Option ℚ := none
  acceleration : Option (ℚ × ℚ × ℚ) := none
  distance_to_center_of_lane : Option ℚ := none
  distance_along_route : Option ℚ := none
  lap_number : Option ℤ := none
  deriving DecidableEq, Repr

/-- The mutable fields of `DeepDriveEnv` touched by the per-step logic
(`_step`, `get_reward`, the four term accessors, `compute_lap_statistics`,
`is_stuck`, `log_benchmark_trial`, `reset_forward_progress`). -/
structure EnvState where
  start_time : ℚ
  prev_step_time : Option ℚ := none
  distance_along_route : ℚ := 0
  start_distance_along_route : ℚ := 0
  score : Score
  last_forward_progress_time : ℚ
  steps_crawling : ℕ := 0
  steps_crawling_with_throttle_on : ℕ := 0
  lap_number : Option ℤ := none
  prev_lap_score : ℚ := 0
  should_end_on_lap : Bool := false
  should_benchmark : Bool := false
  done_benchmarking : Bool := false
  trial_scores : List Score := []
  deriving DecidableEq, Repr

namespace DeepDriveEnv

/-- `gforces = np.sqrt(a.dot(a)) / 980` where `a` is the acceleration
3-vector; `sq` abstracts `np.sqrt`. -/
def gforces_of (sq : ℚ → ℚ) (a : ℚ × ℚ × ℚ) : ℚ :=
  sq (a.1 * a.1 + a.2.1 * a.2.1 + a.2.2 * a.2.2) / 980

/-- `DeepDriveEnv.reset_forward_progress` (`cur_time` models `time.time()`). -/
def reset_forward_progress (cur_time : ℚ) (s : EnvState) : EnvState :=
  { s with last_forward_progress_time := cur_time,
           steps_crawling_with_throttle_on := 0,
           steps_crawling := 0 }

/-- `DeepDriveEnv.log_benchmark_trial`: sets `score.end_time = time.time()`
(modelled by `cur_time`) and appends the score to `trial_scores`.  The
summary statistics and the CSV write only read the state and are dropped. -/
def log_benchmark_trial (cur_time : ℚ) (s : EnvState) : EnvState :=
  let score := { s.score with end_time := some cur_time }
  { s with score := score, trial_scores := s.trial_scores ++ [score] }

/-- `DeepDriveEnv.get_speed_reward(obz, time_passed)`: the term is computed
only when the `speed` key is present and `time_passed is not None` (nested
ifs in the source); the accumulator `score.speed_reward` is incremented
unconditionally (by 0 when the term was skipped). -/
def get_speed_reward (o : Obz) (time_passed : Option ℚ) (s : EnvState) :
    ℚ × EnvState :=
  let speed_reward : ℚ :=
    match o.speed with
    | some speed =>
      match time_passed with
      | some tp => DeepDriveRewardCalculator.get_speed_reward speed tp
      | none => 0
    | none => 0
  (speed_reward,
   { s with score.speed_reward := s.score.speed_reward + speed_reward })

/-- `DeepDriveEnv.get_lane_deviation_penalty(obz, time_passed)`.  A raised
`ValueError` propagates (outer match on the calculator's result). -/
def get_lane_deviation_penalty (o : Obz) (time_passed : Option ℚ)
    (s : EnvState) : Except String (ℚ × EnvState) :=
  match (match o.distance_to_center_of_lane with
         | some d =>
           DeepDriveRewardCalculator.get_lane_deviation_penalty d time_passed
         | none => Except.ok 0) with
  | Except.error e => Except.error e
  | Except.ok lane_deviation_penalty =>
    Except.ok (lane_deviation_penalty,
      { s with score.lane_deviation_penalty :=
          s.score.lane_deviation_penalty + lane_deviation_penalty })

/-- `DeepDriveEnv.get_gforce_penalty(obz, time_passed)`: guarded by the
presence of the `acceleration` key and `time_passed is not None` (nested
ifs in the source); a raised `ValueError` propagates. -/
def get_gforce_penalty (sq : ℚ → ℚ) (o : Obz) (time_passed : Option ℚ)
    (s : EnvState) : Except String (ℚ × EnvState) :=
  match (match o.acceleration with
         | some a =>
           match time_passed with
           | some tp =>
             DeepDriveRewardCalculator.get_gforce_penalty (gforces_of sq a) tp
           | none => Except.ok 0
         | none => Except.ok 0) with
  | Except.error e => Except.error e
  | Except.ok gforce_penalty =>
    Except.ok (gforce_penalty,
      { s with score.gforce_penalty := s.score.gforce_penalty + gforce_penalty })

/-- `DeepDriveEnv.get_progress_reward(obz, time_passed)`.  NOTE: the source
(line 352) calls `DeepDriveRewardCalculator.get_progress_reward(progress,
time_passed)` without assigning the result, so the local `progress_reward`
stays 0; the unused binding below mirrors that discarded call. -/
def get_progress_reward (o : Obz) (time_passed : Option ℚ) (s : EnvState) :
    ℚ × EnvState :=
  let progress_reward : ℚ := 0
  match o.distance_along_route with
  | some dar =>
    let dist := dar - s.start_distance_along_route
    let progress := dist - s.distance_along_route
    let s := { s with distance_along_route := dist }
    let _discarded := DeepDriveRewardCalculator.get_progress_reward progress time_passed
    (progress_reward,
     { s with score.progress_reward := s.score.progress_reward + progress_reward })
  | none =>
    (progress_reward,
     { s with score.progress_reward := s.score.progress_reward + progress_reward })

/-- `DeepDriveEnv.get_reward(obz, now)`.  `cur_time` models the separate
`time.time()` read in the grace-period check (line 292); `now` is the step
timestamp passed in by `_step`.  A falsy `obz` skips everything (reward 0,
no score update). -/
def get_reward (sq : ℚ → ℚ) (obz : Option Obz) (now cur_time : ℚ)
    (s : EnvState) : Except String (ℚ × EnvState) :=
  match obz with
  | none => Except.ok (0, s)
  | some o =>
    let time_passed : Option ℚ :=
      match s.prev_step_time with
      | some p => some (now - p)
      | none => none
    let res : Except String (ℚ × EnvState) :=
      if cur_time - s.start_time < 5 / 2 then
        Except.ok (0, s)
      else
        match get_progress_reward o time_passed s with
        | (progress_reward, s) =>
          match get_gforce_penalty sq o time_passed s with
          | Except.error e => Except.error e
          | Except.ok (gforce_penalty, s) =>
            match get_lane_deviation_penalty o time_passed s with
            | Except.error e => Except.error e
            | Except.ok (lane_deviation_penalty, s) =>
              match get_speed_reward o time_passed s with
              | (speed_reward, s) =>
                Except.ok (0 + (progress_reward + speed_reward -
                  gforce_penalty - lane_deviation_penalty), s)
    match res with
    | Except.error e => Except.error e
    | Except.ok (reward, s) =>
      Except.ok (reward, { s with score.total := s.score.total + reward })

/-- `DeepDriveEnv.compute_lap_statistics(done, obz)`.  `cur_time` models the
`time.time()` read inside `log_benchmark_trial`. -/
def compute_lap_statistics (done : Bool) (obz : Option Obz) (cur_time : ℚ)
    (s : EnvState) : Bool × EnvState :=
  match obz with
  | none => (done, s)
  | some o =>
    let lap_number := o.lap_number
    let (done, s) :=
      match lap_number, s.lap_number with
      | some ln, some prev =>
        if prev < ln then
          let s := { s with prev_lap_score := s.score.total }
          let (done, s) :=
            if s.should_benchmark then
              let s := log_benchmark_trial cur_time s
              let s :=
                if s.trial_scores.length = 1000 then
                  { s with done_benchmarking := true }
                else s
              (true, s)
            else (done, s)
          let done := if s.should_end_on_lap then true else done
          (done, s)
        else (done, s)
      | _, _ => (done, s)
    (done, { s with lap_number := lap_number })

/-- `DeepDriveEnv.is_stuck(obz)`.  `test_benchmark_write` models
`'TEST_BENCHMARK_WRITE' in os.environ`; `cur_time` models the `time.time()`
reads.  The source indexes `obz['speed']` and `obz['throttle']` directly, so
an absent key raises `KeyError`. -/
def is_stuck (obz : Option Obz) (cur_time : ℚ) (test_benchmark_write : Bool)
    (s : EnvState) : Except String (Bool × EnvState) :=
  if test_benchmark_write then
    let s := { s with score.got_stuck := true }
    Except.ok (true, log_benchmark_trial cur_time s)
  else
    match obz with
    | none => Except.ok (false, s)
    | some o =>
      match o.speed with
      | none => Except.error "KeyError: speed"
      | some speed =>
        if speed < 100 then
          let s := { s with steps_crawling := s.steps_crawling + 1 }
          match o.throttle with
          | none => Except.error "KeyError: throttle"
          | some throttle =>
            let s :=
              if throttle > 0 then
                { s with steps_crawling_with_throttle_on :=
                    s.steps_crawling_with_throttle_on + 1 }
              else s
            if cur_time - s.last_forward_progress_time > 1 ∧
                (s.steps_crawling_with_throttle_on : ℚ) / (s.steps_crawling : ℚ) > 8 / 10 then
              let s := reset_forward_progress cur_time s
              if s.should_benchmark then
                let s := { s with score.got_stuck := true }
                Except.ok (true, log_benchmark_trial cur_time s)
              else
                Except.ok (true, s)
            else
              Except.ok (false, s)
        else
          Except.ok (false, reset_forward_progress cur_time s)

/-- `DeepDriveEnv._step(action)` from the observation onward: reward, lap
statistics, `prev_step_time` update, stuck check and the stuck adjustment
`done = True; reward -= -10000`.  `send_control`, the dashboard queue,
`step_num` and `info` are external/bookkeeping and omitted.  Returns
`(reward, done, state)`. -/
def _step (sq : ℚ → ℚ) (obz : Option Obz) (now cur_time : ℚ)
    (test_benchmark_write : Bool) (s : EnvState) :
    Except String (ℚ × Bool × EnvState) :=
  match get_reward sq obz now cur_time s with
  | Except.error e => Except.error e
  | Except.ok (reward, s) =>
    match compute_lap_statistics false obz cur_time s with
    | (done, s) =>
      let s := { s with prev_step_time := some now }
      match is_stuck obz cur_time test_benchmark_write s with
      | Except.error e => Except.error e
      | Except.ok (stuck, s) =>
        if stuck then
          Except.ok (reward - (-10000), true, s)
        else
          Except.ok (reward, done, s)

end DeepDriveEnv

/-- The dict returned by a well-formed `deepdrive_client.create` call.
`max_capture_resolution` records the truthiness of that field (`false`
models a missing/empty capability value, which the source treats with
`not self.connection_props['max_capture_resolution']`). -/
structure ConnectionProps where
  max_capture_resolution : Bool
  client_id : ℤ
  server_protocol_version : String
  deriving DecidableEq, Repr

/-- Possible results of one `deepdrive_client.create('127.0.0.1', 9876)`
call: an `int` (old client library), a falsy value (`None`/empty dict), or a
well-formed props dict. -/
inductive CreateResult where
  | intResult : CreateResult
  | falsy : CreateResult
  | props : ConnectionProps → CreateResult
  deriving DecidableEq, Repr

/-- The `DeepDriveEnv` fields mutated by `connect`'s handshake
(`connection_props`, `client_id`); both start as `None` in `__init__`. -/
structure ConnSt where
  connection_props : Option ConnectionProps := none
  client_id : Option ℤ := none
  deriving DecidableEq, Repr

namespace DeepDriveEnv

/-- `DeepDriveEnv.raise_connect_fail`: one of two guidance messages depending
on whether `c.SIM_START_COMMAND` is set; both are connect-failure errors. -/
def raise_connect_fail (sim_start_command : Bool) : String :=
  if sim_start_command then
    "Could not connect to environment. You may need to close the Unreal Editor."
  else
    "Could not connect to the environment."

/-- The inner `_connect()` closure of `DeepDriveEnv.connect`:
assigns `connection_props`, raises on an `int` result, returns early when the
props are falsy or the `max_capture_resolution` field is falsy (leaving
`client_id` untouched), then assigns `client_id` and checks the protocol
version.  `client_version` models
`pkg_resources.get_distribution("deepdrive").version`. -/
def _connect (client_version : String) (res : CreateResult) (s : ConnSt) :
    Except String ConnSt :=
  match res with
  | CreateResult.intResult =>
    Except.error "You have an old version of the deepdrive client - try uninstalling and reinstalling with pip"
  | CreateResult.falsy =>
    Except.ok { s with connection_props := none }
  | CreateResult.props p =>
    let s := { s with connection_props := some p }
    if p.max_capture_resolution = false then
      Except.ok s
    else
      let s := { s with client_id := some p.client_id }
      if client_version ≠ p.server_protocol_version then
        Except.error "Server and client version do not match"
      else
        Except.ok s

/-- The retry loop of `DeepDriveEnv.connect`: `while not
self.connection_props:` increments `cxn_attempts`, sleeps
`cxn_attempts + random.random() * 2` seconds, calls `_connect()` again and
raises once `cxn_attempts >= 10`.  `create k` / `rand k` are the result of
the `k`-th `deepdrive_client.create` call and `random.random()` draw;
`fuel` only bounds the recursion (the loop body runs at most
`max_cxn_attempts = 10` times, so `fuel = 10` never runs out).  Returns the
list of sleep durations alongside the outcome. -/
def connect_while (client_version : String) (create : ℕ → CreateResult)
    (rand : ℕ → ℚ) : ConnSt → ℕ → ℕ → List ℚ → List ℚ × Except String ConnSt
  | s, cxn_attempts, fuel, sleeps =>
    if s.connection_props.isSome then
      (sleeps, Except.ok s)
    else
      match fuel with
      | 0 => (sleeps, Except.error "loop fuel exhausted")
      | fuel + 1 =>
        let cxn_attempts := cxn_attempts + 1
        let sleep := (cxn_attempts : ℚ) + rand cxn_attempts * 2
        let sleeps := sleeps ++ [sleep]
        match _connect client_version (create cxn_attempts) s with
        | Except.error e => (sleeps, Except.error e)
        | Except.ok s =>
          if cxn_attempts ≥ 10 then
            (sleeps, Except.error "Could not connect to the environment")
          else
            connect_while client_version create rand s cxn_attempts fuel sleeps

/-- `DeepDriveEnv.connect(cameras)` up to the `client_id` validity check:
initial `_connect()`, the retry loop, then
`if self.client_id and self.client_id > 0` (camera registration and
`reset_capture`, which only run on success, are modelled separately) else
`raise_connect_fail()`. -/
def connect (client_version : String) (create : ℕ → CreateResult)
    (rand : ℕ → ℚ) (sim_start_command : Bool) (s : ConnSt) :
    List ℚ × Except String ConnSt :=
  match _connect client_version (create 0) s with
  | Except.error e => ([], Except.error e)
  | Except.ok s =>
    match connect_while client_version create rand s 0 10 [] with
    | (sleeps, Except.error e) => (sleeps, Except.error e)
    | (sleeps, Except.ok s) =>
      match s.client_id with
      | some cid =>
        if cid > 0 then (sleeps, Except.ok s)
        else (sleeps, Except.error (raise_connect_fail sim_start_command))
      | none => (sleeps, Except.error (raise_connect_fail sim_start_command))

/-- The loop of `DeepDriveEnv.reset_capture(shared_mem_name,
shared_mem_size)`: `n = 10; sleep = 0.1; while n > 0:` try
`deepdrive_capture.reset(...)` (modelled by `reset k`, the result of the
`k`-th call), and on failure `n -= 1; sleep *= 2; time.sleep(sleep)` —
the doubling happens BEFORE the sleep.  Returns the sleep durations and
whether a bind succeeded. -/
def reset_capture_loop (reset : ℕ → Bool) :
    ℕ → ℚ → ℕ → List ℚ → List ℚ × Bool
  | 0, _, _, sleeps => (sleeps, false)
  | n + 1, sleep, k, sleeps =>
    if reset k then
      (sleeps, true)
    else
      let sleep := sleep * 2
      reset_capture_loop reset n sleep (k + 1) (sleeps ++ [sleep])

/-- `DeepDriveEnv.reset_capture`: run the bind loop starting from `n = 10`,
`sleep = 0.1`; on exhaustion call `raise_connect_fail()`. -/
def reset_capture (reset : ℕ → Bool) (sim_start_command : Bool) :
    List ℚ × Except String Unit :=
  match reset_capture_loop reset 10 (1 / 10) 0 [] with
  | (sleeps, true) => (sleeps, Except.ok ())
  | (sleeps, false) =>
    (sleeps, Except.error (raise_connect_fail sim_start_command))

end DeepDriveEnv

/-- A freshly constructed `Score` (all accumulators at their class defaults,
`start_time = 0`). -/
def score0 : Score := { start_time := 0 }

/-- An environment state as after `__init__` / `_reset` at time 0. -/
def mkState : EnvState := { start_time := 0, score := score0, last_forward_progress_time := 0 }

/-- A snapshot carrying only `distance_along_route = 10000` cm. -/
def routeObz : Obz := { distance_along_route := some 10000 }

/-- `mkState` with a previous-step timestamp (so `time_passed` is defined). -/
def st1 : EnvState := { mkState with prev_step_time := some 0 }

/-- A snapshot of a stalled car: `speed = 0` cm/s, `throttle = 1`. -/
def stuckObz : Obz := { speed := some 0, throttle := some 1 }

/-- A snapshot reporting `lap_number = 1`. -/
def lapObz : Obz := { lap_number := some 1 }

/-- A benchmarking state on lap 0 with 1000 trials already recorded and the
done flag set. -/
def s1000 : EnvState :=
  { mkState with should_benchmark := true, done_benchmarking := true,
                 lap_number := some 0, trial_scores := List.replicate 1000 score0 }

/-- A benchmarking state on lap 0 with no trials recorded yet. -/
def sBench : EnvState :=
  { mkState with should_benchmark := true, lap_number := some 0 }

end DeepDriveGym

open DeepDriveGym
open DeepDriveGym.DeepDriveRewardCalculator

/-- `clip` maps everything into `[-100, 100]`. -/
lemma clip_mem_Icc (r : ℚ) : -100 ≤ clip r ∧ clip r ≤ 100 := by
  unfold clip
  exact ⟨le_min (le_max_right _ _) (by norm_num), min_le_right _ _⟩

/-- C6: for all valid inputs (non-negative magnitudes where required, any
time_passed), each of the four reward/penalty terms — speed reward, lane
deviation penalty, g-force penalty, progress reward — returns a value in the
closed interval [-100, 100]. -/
theorem C6_reward_terms_clipped (cmps tp dev g prog : ℚ) (otp : Option ℚ)
    (hdev : 0 ≤ dev) (hg : 0 ≤ g) :
    (-100 ≤ get_speed_reward cmps tp ∧ get_speed_reward cmps tp ≤ 100) ∧
    (∃ v, get_lane_deviation_penalty dev otp = Except.ok v ∧ -100 ≤ v ∧ v ≤ 100) ∧
    (∃ v, get_gforce_penalty g tp = Except.ok v ∧ -100 ≤ v ∧ v ≤ 100) ∧
    (-100 ≤ get_progress_reward prog otp ∧ get_progress_reward prog otp ≤ 100) := by
  refine ⟨?_, ?_, ?_, ?_⟩
  · exact clip_mem_Icc _
  · unfold get_lane_deviation_penalty
    rw [if_neg (not_lt.mpr hdev)]
    exact ⟨_, rfl, clip_mem_Icc _⟩
  · unfold get_gforce_penalty
    rw [if_neg (not_lt.mpr hg)]
    exact ⟨_, rfl, clip_mem_Icc _⟩
  · exact clip_mem_Icc _

/-- Witness for C6 at concrete inputs. -/
theorem C6_witness :
    ((-100 ≤ get_speed_reward 1000 1 ∧ get_speed_reward 1000 1 ≤ 100) ∧
     (∃ v, get_lane_deviation_penalty 300 (some 3) = Except.ok v ∧ -100 ≤ v ∧ v ≤ 100) ∧
     (∃ v, get_gforce_penalty 1 1 = Except.ok v ∧ -100 ≤ v ∧ v ≤ 100) ∧
     (-100 ≤ get_progress_reward 10000 (some 3) ∧ get_progress_reward 10000 (some 3) ≤ 100)) :=
  C6_reward_terms_clipped 1000 1 300 1 10000 (some 3) (by norm_num) (by norm_num)

/-- C7: the lane deviation penalty raises an invalid-input error for every
negative lane-deviation input, the g-force penalty raises an invalid-input
error for every negative g-force magnitude, and the environment-level
wrappers propagate (do not swallow) those errors. -/
theorem C7_negative_inputs_raise (dev g tp : ℚ) (otp : Option ℚ)
    (hdev : dev < 0) (hg : g < 0) :
    get_lane_deviation_penalty dev otp =
      Except.error "ValueError: Lane deviation should be positive" ∧
    get_gforce_penalty g tp =
      Except.error "ValueError: G-Force should be positive" ∧
    (∀ (o : Obz) (s : EnvState), o.distance_to_center_of_lane = some dev →
      DeepDriveEnv.get_lane_deviation_penalty o otp s =
        Except.error "ValueError: Lane deviation should be positive") ∧
    (∀ (sq : ℚ → ℚ) (o : Obz) (a : ℚ × ℚ × ℚ) (s : EnvState),
      o.acceleration = some a → DeepDriveEnv.gforces_of sq a = g →
      DeepDriveEnv.get_gforce_penalty sq o (some tp) s =
        Except.error "ValueError: G-Force should be positive") := by
  have hlane : get_lane_deviation_penalty dev otp =
      Except.error "ValueError: Lane deviation should be positive" := by
    unfold get_lane_deviation_penalty
    rw [if_pos hdev]
  have hgf : get_gforce_penalty g tp =
      Except.error "ValueError: G-Force should be positive" := by
    unfold get_gforce_penalty
    rw [if_pos hg]
  refine ⟨hlane, hgf, ?_, ?_⟩
  · intro o s ho
    simp [DeepDriveEnv.get_lane_deviation_penalty, ho, hlane]
  · intro sq o a s ho ha
    simp [DeepDriveEnv.get_gforce_penalty, ho, ha, hgf]

/-- Witness for C7 at concrete inputs. -/
theorem C7_witness :
    get_lane_deviation_penalty (-1) (some 1) =
      Except.error "ValueError: Lane deviation should be positive" ∧
    get_gforce_penalty (-1) 1 =
      Except.error "ValueError: G-Force should be positive" ∧
    DeepDriveEnv.get_lane_deviation_penalty
        { distance_to_center_of_lane := some (-1) } (some 1) mkState =
      Except.error "ValueError: Lane deviation should be positive" ∧
    DeepDriveEnv.get_gforce_penalty (fun _ => -980)
        { acceleration := some (0, 0, 0) } (some 1) mkState =
      Except.error "ValueError: G-Force should be positive" := by
  have h := C7_negative_inputs_raise (-1) (-1) 1 (some 1) (by norm_num) (by norm_num)
  exact ⟨h.1, h.2.1, h.2.2.1 _ mkState rfl,
    h.2.2.2 (fun _ => -980) _ (0, 0, 0) mkState rfl
      (by norm_num [DeepDriveEnv.gforces_of])⟩

/-- C8: for positive `time_passed`, the progress reward is 0 whenever
`progress / time_passed < -40000` cm/s (implausible backward jump), and
`progress / 100` clipped to [-100, 100] otherwise. -/
theorem C8_progress_reward_backward_jump (progress tp : ℚ) (_htp : 0 < tp) :
    get_progress_reward progress (some tp) =
      if progress / tp < -40000 then 0 else clip (progress / 100) := by
  unfold get_progress_reward
  norm_num
  split
  · norm_num [clip, max_def, min_def]
  · rfl

/-- Witness for C8: `progressReward(progress=-500000, timePassed=1)` is 0. -/
theorem C8_witness : get_progress_reward (-500000) (some 1) = 0 := by
  have h := C8_progress_reward_backward_jump (-500000) 1 one_pos
  rw [h]
  norm_num

/-- Helper: inside the 2.5-second grace window `get_reward` returns 0 and
adds 0 to the score total. -/
lemma get_reward_grace (sq : ℚ → ℚ) (obz : Option Obz)
    (now cur_time : ℚ) (s : EnvState) (h : cur_time - s.start_time < 5 / 2) :
    ∃ s', DeepDriveEnv.get_reward sq obz now cur_time s = Except.ok (0, s') ∧
      s'.score.total = s.score.total := by
  cases obz with
  | none => exact ⟨s, rfl, rfl⟩
  | some o =>
    refine ⟨{ s with score.total := s.score.total + 0 }, ?_, by simp⟩
    simp only [DeepDriveEnv.get_reward, if_pos h]

/-- C9: for every step whose wall-clock time is less than 2.5 seconds after
the episode start time, the reward returned is 0 regardless of the telemetry
snapshot, and the episode score total is unchanged by that step. -/
theorem C9_grace_period_zero_reward (sq : ℚ → ℚ) (obz : Option Obz)
    (now cur_time : ℚ) (s : EnvState) (h : cur_time - s.start_time < 5 / 2) :
    ∃ s', DeepDriveEnv.get_reward sq obz now cur_time s = Except.ok (0, s') ∧
      s'.score.total = s.score.total :=
  get_reward_grace sq obz now cur_time s h

/-- Witness for C9: a 1-second-old step with rich telemetry yields reward 0
and leaves the score total unchanged. -/
theorem C9_witness :
    ∃ s', DeepDriveEnv.get_reward (fun _ => 0)
        (some { speed := some 10000, throttle := some 1,
                acceleration := some (1000, 2000, 2000),
                distance_to_center_of_lane := some 5000,
                distance_along_route := some 99999, lap_number := some 1 })
        1 1 mkState = Except.ok (0, s') ∧
      s'.score.total = mkState.score.total :=
  C9_grace_period_zero_reward (fun _ => 0) _ 1 1 mkState (by norm_num [mkState, score0])

/-- Helper: an absent `distance_along_route` key skips the progress term
(and, because of the discarded calculator call, the term is 0 anyway). -/
lemma get_progress_reward_skip (o : Obz) (h : o.distance_along_route = none)
    (tp : Option ℚ) (s : EnvState) :
    DeepDriveEnv.get_progress_reward o tp s = (0, s) := by
  simp [DeepDriveEnv.get_progress_reward, h]

/-- Helper: an absent `acceleration` key skips the g-force term. -/
lemma get_gforce_penalty_skip (sq : ℚ → ℚ) (o : Obz)
    (h : o.acceleration = none) (tp : Option ℚ) (s : EnvState) :
    DeepDriveEnv.get_gforce_penalty sq o tp s = Except.ok (0, s) := by
  simp [DeepDriveEnv.get_gforce_penalty, h]

/-- Helper: an absent `distance_to_center_of_lane` key skips the lane term. -/
lemma get_lane_deviation_penalty_skip (o : Obz)
    (h : o.distance_to_center_of_lane = none) (tp : Option ℚ) (s : EnvState) :
    DeepDriveEnv.get_lane_deviation_penalty o tp s = Except.ok (0, s) := by
  simp [DeepDriveEnv.get_lane_deviation_penalty, h]

/-- Helper: an absent `speed` key skips the speed term. -/
lemma get_speed_reward_skip (o : Obz) (h : o.speed = none)
    (tp : Option ℚ) (s : EnvState) :
    DeepDriveEnv.get_speed_reward o tp s = (0, s) := by
  simp [DeepDriveEnv.get_speed_reward, h]

/-- Helper: outside the grace window, a snapshot carrying none of the four
reward inputs yields reward 0 and leaves the state unchanged. -/
lemma get_reward_skip (sq : ℚ → ℚ) (o : Obz) (now cur_time : ℚ)
    (s : EnvState) (hgrace : ¬(cur_time - s.start_time < 5 / 2))
    (hsp : o.speed = none) (hlane : o.distance_to_center_of_lane = none)
    (hacc : o.acceleration = none) (hroute : o.distance_along_route = none) :
    DeepDriveEnv.get_reward sq (some o) now cur_time s = Except.ok (0, s) := by
  simp only [DeepDriveEnv.get_reward, if_neg hgrace,
    get_progress_reward_skip o hroute, get_gforce_penalty_skip sq o hacc,
    get_lane_deviation_penalty_skip o hlane, get_speed_reward_skip o hsp]
  norm_num

/-- C10 counterexample: a non-None snapshot without a `speed` key makes the
per-step processing fail: `is_stuck` (and hence `_step`) raises `KeyError`
instead of treating the absent field as zero-contribution. -/
theorem C10_counterexample :
    DeepDriveEnv.is_stuck (some { lap_number := some 1 }) 10 false mkState =
      Except.error "KeyError: speed" ∧
    DeepDriveEnv._step (fun _ => 0) (some { lap_number := some 1 }) 3 3 false mkState =
      Except.error "KeyError: speed" := by
  constructor
  · rfl
  · have hr : DeepDriveEnv.get_reward (fun _ => 0) (some { lap_number := some 1 })
        3 3 mkState = Except.ok (0, mkState) :=
      get_reward_skip _ _ 3 3 mkState (by norm_num [mkState, score0]) rfl rfl rfl rfl
    simp only [DeepDriveEnv._step, hr]
    rfl

/-- C10 (amended): reward computation and lap statistics tolerate a snapshot
whose optional reward inputs are all absent (each absent field contributes
nothing that step), but stuck detection reads `speed` unconditionally and
fails with `KeyError` when it is absent from a non-None snapshot. -/
theorem C10_absent_fields (sq : ℚ → ℚ) (o : Obz) (now cur_time : ℚ)
    (s : EnvState) (done : Bool)
    (hsp : o.speed = none) (hlane : o.distance_to_center_of_lane = none)
    (hacc : o.acceleration = none) (hroute : o.distance_along_route = none)
    (hlap : o.lap_number = none) :
    (∃ s', DeepDriveEnv.get_reward sq (some o) now cur_time s = Except.ok (0, s')) ∧
    DeepDriveEnv.compute_lap_statistics done (some o) cur_time s =
      (done, { s with lap_number := none }) ∧
    DeepDriveEnv.is_stuck (some o) cur_time false s =
      Except.error "KeyError: speed" := by
  refine ⟨?_, ?_, ?_⟩
  · by_cases hgrace : cur_time - s.start_time < 5 / 2
    · obtain ⟨s', hs', _⟩ := get_reward_grace sq (some o) now cur_time s hgrace
      exact ⟨s', hs'⟩
    · exact ⟨s, get_reward_skip sq o now cur_time s hgrace hsp hlane hacc hroute⟩
  · simp [DeepDriveEnv.compute_lap_statistics, hlap]
  · simp [DeepDriveEnv.is_stuck, hsp]

/-- Witness for C10 at the all-absent snapshot and a concrete state. -/
theorem C10_witness :
    (∃ s', DeepDriveEnv.get_reward (fun _ => 0) (some {}) 3 3 mkState =
      Except.ok (0, s')) ∧
    DeepDriveEnv.compute_lap_statistics false (some {}) 3 mkState =
      (false, { mkState with lap_number := none }) ∧
    DeepDriveEnv.is_stuck (some {}) 3 false mkState =
      Except.error "KeyError: speed" :=
  C10_absent_fields (fun _ => 0) {} 3 3 mkState false rfl rfl rfl rfl rfl

/-- C1 (code bug): outside the grace period, with a previous-step timestamp
and a snapshot carrying `distance_along_route`, the step reward and the
`progress_reward` accumulator stay 0 — the environment discards the
calculator's result (which is 100 here), so the progress term never
contributes. -/
theorem C1_progress_term_discarded :
    (DeepDriveEnv.get_reward (fun _ => 0) (some routeObz) 3 3 st1).map
      (fun r => (r.1, r.2.score.progress_reward, r.2.score.total,
                 r.2.distance_along_route)) =
      Except.ok (0, 0, 0, 10000) ∧
    DeepDriveRewardCalculator.get_progress_reward 10000 (some 3) = 100 := by
  constructor
  · norm_num [DeepDriveEnv.get_reward, DeepDriveEnv.get_progress_reward,
      DeepDriveEnv.get_gforce_penalty, DeepDriveEnv.get_lane_deviation_penalty,
      DeepDriveEnv.get_speed_reward, routeObz, st1, mkState, score0, Except.map]
  · norm_num [DeepDriveRewardCalculator.get_progress_reward,
      DeepDriveRewardCalculator.clip, min_def, max_def]

/-- C2 (code bug): on a step where the stuck detector fires, `_step` reports
done but executes `reward -= -10000`, so the returned reward is the
pre-stuck reward (0 here) PLUS 10000, not minus. -/
theorem C2_stuck_reward_sign :
    (DeepDriveEnv._step (fun _ => 0) (some stuckObz) 3 3 false mkState).map
      (fun r => (r.1, r.2.1)) = Except.ok (10000, true) := by
  norm_num [DeepDriveEnv._step, DeepDriveEnv.get_reward,
    DeepDriveEnv.get_progress_reward, DeepDriveEnv.get_gforce_penalty,
    DeepDriveEnv.get_lane_deviation_penalty, DeepDriveEnv.get_speed_reward,
    DeepDriveEnv.compute_lap_statistics, DeepDriveEnv.is_stuck,
    DeepDriveEnv.reset_forward_progress, stuckObz, mkState, score0, Except.map]

/-- Helper: a benchmark-mode lap transition always appends exactly one trial
and sets the done flag exactly when the new length is 1000. -/
lemma compute_lap_benchmark_facts (done : Bool) (o : Obz) (t : ℚ)
    (s : EnvState) (ln prev : ℤ) (ho : o.lap_number = some ln)
    (hs : s.lap_number = some prev) (hlt : prev < ln)
    (hb : s.should_benchmark = true) :
    (DeepDriveEnv.compute_lap_statistics done (some o) t s).1 = true ∧
    (DeepDriveEnv.compute_lap_statistics done (some o) t s).2.trial_scores.length =
      s.trial_scores.length + 1 ∧
    (DeepDriveEnv.compute_lap_statistics done (some o) t s).2.done_benchmarking =
      (if s.trial_scores.length + 1 = 1000 then true else s.done_benchmarking) := by
  simp [DeepDriveEnv.compute_lap_statistics, DeepDriveEnv.log_benchmark_trial,
    ho, hs, hlt, hb, apply_ite]

/-- C3 counterexample: with 1000 trials already recorded (and the done flag
already true), a further benchmark lap still appends a 1001st trial — the
list is not capped — while the done flag stays true. -/
theorem C3_counterexample :
    (DeepDriveEnv.compute_lap_statistics false (some lapObz) 7 s1000).2.trial_scores.length = 1001 ∧
    (DeepDriveEnv.compute_lap_statistics false (some lapObz) 7 s1000).2.done_benchmarking = true := by
  have h := compute_lap_benchmark_facts false lapObz 7 s1000 1 0 rfl rfl
    (by norm_num) rfl
  have hlen : s1000.trial_scores.length = 1000 := by
    simp only [s1000, List.length_replicate]
  refine ⟨?_, ?_⟩
  · rw [h.2.1, hlen]
  · rw [h.2.2, hlen]
    norm_num [s1000, mkState]

/-- C3 (amended): each benchmark-trial finalization appends one trial
(regardless of how many are already recorded — the list is not capped), the
done flag becomes true exactly when the count reaches 1000, and later
finalizations (in particular the 1001st) leave the flag unchanged. -/
theorem C3_trial_list_not_capped (done : Bool) (o : Obz) (t : ℚ)
    (s : EnvState) (ln prev : ℤ) (ho : o.lap_number = some ln)
    (hs : s.lap_number = some prev) (hlt : prev < ln)
    (hb : s.should_benchmark = true) :
    (DeepDriveEnv.compute_lap_statistics done (some o) t s).1 = true ∧
    (DeepDriveEnv.compute_lap_statistics done (some o) t s).2.trial_scores.length =
      s.trial_scores.length + 1 ∧
    (DeepDriveEnv.compute_lap_statistics done (some o) t s).2.done_benchmarking =
      (if s.trial_scores.length + 1 = 1000 then true else s.done_benchmarking) :=
  compute_lap_benchmark_facts done o t s ln prev ho hs hlt hb

/-- Witness for C3 on a fresh benchmarking state. -/
theorem C3_witness :
    (DeepDriveEnv.compute_lap_statistics false (some lapObz) 7 sBench).1 = true ∧
    (DeepDriveEnv.compute_lap_statistics false (some lapObz) 7 sBench).2.trial_scores.length =
      sBench.trial_scores.length + 1 ∧
    (DeepDriveEnv.compute_lap_statistics false (some lapObz) 7 sBench).2.done_benchmarking =
      (if sBench.trial_scores.length + 1 = 1000 then true else sBench.done_benchmarking) :=
  C3_trial_list_not_capped false lapObz 7 sBench 1 0 rfl rfl (by norm_num) rfl

/-- C4 (code bug): a handshake response that is well-formed but whose
required capability field (`max_capture_resolution`) is falsy is NOT
retried: `connection_props` is truthy, so the retry loop exits at once and
`connect` raises the connect-failure error with zero backoff sleeps.  By
contrast, a fully falsy response does drive the backoff loop
(`cxn_attempts + random()*2` seconds, here with `random() = 0`) and fails
after 10 retries. -/
theorem C4_missing_capability_not_retried :
    DeepDriveEnv.connect "v"
      (fun _ => CreateResult.props
        { max_capture_resolution := false, client_id := 1,
          server_protocol_version := "v" })
      (fun _ => 0) false {} =
      ([], Except.error (DeepDriveEnv.raise_connect_fail false)) ∧
    DeepDriveEnv.connect "v" (fun _ => CreateResult.falsy) (fun _ => 0) false {} =
      ([1, 2, 3, 4, 5, 6, 7, 8, 9, 10],
       Except.error "Could not connect to the environment") := by
  constructor
  · rfl
  · norm_num [DeepDriveEnv.connect, DeepDriveEnv._connect,
      DeepDriveEnv.connect_while]

/-- C5 counterexample: when every bind attempt fails, the sleeps between
consecutive attempts are 0.2, 0.4, ..., 102.4 seconds — the first sleep is
0.2, not the claimed 0.1, because the seed is doubled before sleeping. -/
theorem C5_counterexample :
    DeepDriveEnv.reset_capture (fun _ => false) false =
      ([1/5, 2/5, 4/5, 8/5, 16/5, 32/5, 64/5, 128/5, 256/5, 512/5],
       Except.error (DeepDriveEnv.raise_connect_fail false)) ∧
    ((1 : ℚ) / 5) ≠ 1 / 10 := by
  constructor
  · norm_num [DeepDriveEnv.reset_capture, DeepDriveEnv.reset_capture_loop]
  · norm_num

/-- C5 (amended): the capture-channel bootstrap tries binding up to 10
times; the 0.1-second seed is doubled before each sleep, so the sleeps
between consecutive failed attempts are 0.2, 0.4, ..., 102.4 seconds, and
on exhaustion the fatal connect-failure error is raised. -/
theorem C5_backoff_doubles_before_sleeping (reset : ℕ → Bool) (ssc : Bool)
    (hfail : ∀ k, k < 10 → reset k = false) :
    DeepDriveEnv.reset_capture reset ssc =
      ([1/5, 2/5, 4/5, 8/5, 16/5, 32/5, 64/5, 128/5, 256/5, 512/5],
       Except.error (DeepDriveEnv.raise_connect_fail ssc)) := by
  norm_num [DeepDriveEnv.reset_capture, DeepDriveEnv.reset_capture_loop,
    hfail 0 (by norm_num), hfail 1 (by norm_num), hfail 2 (by norm_num),
    hfail 3 (by norm_num), hfail 4 (by norm_num), hfail 5 (by norm_num),
    hfail 6 (by norm_num), hfail 7 (by norm_num), hfail 8 (by norm_num),
    hfail 9 (by norm_num)]

/-- Witness for C5 with the simulator-start-command message variant. -/
theorem C5_witness :
    DeepDriveEnv.reset_capture (fun _ => false) true =
      ([1/5, 2/5, 4/5, 8/5, 16/5, 32/5, 64/5, 128/5, 256/5, 512/5],
       Except.error (DeepDriveEnv.raise_connect_fail true)) :=
  C5_backoff_doubles_before_sleeping (fun _ => false) true (fun _ _ => rfl)

